import Mathlib

/-!
Shallow embedding of `core/tauri-runtime/src/menu.rs`: the menu tree model
(`Menu`, `Submenu`, `MenuEntry` and the system-tray counterparts), the custom
menu item with its hash-based identifier resolver (`CustomMenuItem::id_value`),
the native catalogs (`MenuItem`, `NativeImage`, `SystemTrayMenuItem`) and the
update protocol (`MenuUpdate`), together with theorems settling the spec's
claims about them.

The Rust code is generic over `I: MenuId` (equality + stable hashing + clone);
here every definition is parametrized by a plain type `I`, and the hashing
side of the capability is passed explicitly as a function `hash : I → Nat`
abstracting the composite of `I`'s `Hash` implementation and
`DefaultHasher`, whose 64-bit `finish` output is modeled by reduction
modulo `2 ^ 64`.
-/

namespace TauriMenu

/-- Named images defined by the system (`NativeImage`, macOS only). -/
inductive NativeImage where
  | Add
  | Advanced
  | Bluetooth
  | Bookmarks
  | Caution
  | ColorPanel
  | ColumnView
  | Computer
  | EnterFullScreen
  | Everyone
  | ExitFullScreen
  | FlowView
  | Folder
  | FolderBurnable
  | FolderSmart
  | FollowLinkFreestanding
  | FontPanel
  | GoLeft
  | GoRight
  | Home
  | IChatTheater
  | IconView
  | Info
  | InvalidDataFreestanding
  | LeftFacingTriangle
  | ListView
  | LockLocked
  | LockUnlocked
  | MenuMixedState
  | MenuOnState
  | MobileMe
  | MultipleDocuments
  | Network
  | Path
  | PreferencesGeneral
  | QuickLook
  | RefreshFreestanding
  | Refresh
  | Remove
  | RevealFreestanding
  | RightFacingTriangle
  | Share
  | Slideshow
  | SmartBadge
  | StatusAvailable
  | StatusNone
  | StatusPartiallyAvailable
  | StatusUnavailable
  | StopProgressFreestanding
  | StopProgress
  | TrashEmpty
  | TrashFull
  | User
  | UserAccounts
  | UserGroup
  | UserGuest
deriving DecidableEq

/-- The update protocol: closed set of mutation commands (`MenuUpdate`). -/
inductive MenuUpdate where
  | SetEnabled : Bool → MenuUpdate
  | SetTitle : String → MenuUpdate
  | SetSelected : Bool → MenuUpdate
  | SetNativeImage : NativeImage → MenuUpdate
deriving DecidableEq

/-- The closed catalog of platform-reserved window-menu actions (`MenuItem`). -/
inductive MenuItem where
  | About : String → MenuItem
  | Hide
  | Services
  | HideOthers
  | ShowAll
  | CloseWindow
  | Quit
  | Copy
  | Cut
  | Undo
  | Redo
  | SelectAll
  | Paste
  | EnterFullScreen
  | Minimize
  | Zoom
  | Separator
deriving DecidableEq

/-- System tray menu item (`SystemTrayMenuItem`): a single `Separator` variant. -/
inductive SystemTrayMenuItem where
  | Separator
deriving DecidableEq

/-- A custom menu item (`CustomMenuItem<I>`). -/
structure CustomMenuItem (I : Type) where
  id : I
  title : String
  keyboard_accelerator : Option String
  enabled : Bool
  selected : Bool
  native_image : Option NativeImage

/-- `CustomMenuItem::new(id, title)`. -/
def CustomMenuItem.new {I : Type} (id : I) (title : String) : CustomMenuItem I :=
  { id := id
    title := title
    keyboard_accelerator := none
    enabled := true
    selected := false
    native_image := none }

/-- `CustomMenuItem::native_image(self, image)` (builder method; renamed with a
prime because the field of the same name exists). `Option::replace` stores
`some image`. -/
def CustomMenuItem.native_image' {I : Type} (self : CustomMenuItem I)
    (image : NativeImage) : CustomMenuItem I :=
  { self with native_image := some image }

/-- `CustomMenuItem::disabled(self)`: mark the item as disabled. -/
def CustomMenuItem.disabled {I : Type} (self : CustomMenuItem I) : CustomMenuItem I :=
  { self with enabled := false }

/-- `CustomMenuItem::selected(self)`: mark the item as selected (renamed with a
prime because the field of the same name exists). -/
def CustomMenuItem.selected' {I : Type} (self : CustomMenuItem I) : CustomMenuItem I :=
  { self with selected := true }

/-- The 64-bit value returned by `DefaultHasher::finish` after feeding `i`
through `I`'s `Hash` implementation. The composite is abstracted by `hash`;
`finish` returns a u64, modeled as reduction modulo `2 ^ 64`. -/
def hashFinish {I : Type} (hash : I → Nat) (i : I) : Nat :=
  hash i % 2 ^ 64

/-- `CustomMenuItem::id_value(&self)`: hash `self.id` with a fresh
`DefaultHasher` and cast the 64-bit `finish` result `as u32`
(truncation, i.e. modulo `2 ^ 32`). -/
def CustomMenuItem.id_value {I : Type} (hash : I → Nat)
    (self : CustomMenuItem I) : Nat :=
  hashFinish hash self.id % 2 ^ 32

mutual

/-- A window menu (`Menu<I>`): an ordered sequence of entries. -/
inductive Menu (I : Type) where
  | mk : List (MenuEntry I) → Menu I

/-- `Submenu<I>`: title, enabled flag, inner menu. -/
inductive Submenu (I : Type) where
  | mk : String → Bool → Menu I → Submenu I

/-- An entry of a window menu (`MenuEntry<I>`). -/
inductive MenuEntry (I : Type) where
  | CustomItem : CustomMenuItem I → MenuEntry I
  | NativeItem : MenuItem → MenuEntry I
  | Submenu : Submenu I → MenuEntry I

end

/-- The `items` field of `Menu<I>`. -/
def Menu.items {I : Type} : Menu I → List (MenuEntry I)
  | .mk l => l

/-- The `title` field of `Submenu<I>`. -/
def Submenu.title {I : Type} : Submenu I → String
  | .mk t _ _ => t

/-- The `enabled` field of `Submenu<I>`. -/
def Submenu.enabled {I : Type} : Submenu I → Bool
  | .mk _ e _ => e

/-- The `inner` field of `Submenu<I>`. -/
def Submenu.inner {I : Type} : Submenu I → Menu I
  | .mk _ _ m => m

/-- `Submenu::new(title, menu)`: named, initially-enabled submenu. -/
def Submenu.new {I : Type} (title : String) (menu : Menu I) : Submenu I :=
  .mk title true menu

/-- `Menu::default()` / `Menu::new()`: the empty menu. -/
def Menu.new {I : Type} : Menu I :=
  .mk []

/-- `Menu::add_item(self, item)`: push a custom leaf onto `self.items`. -/
def Menu.add_item {I : Type} (self : Menu I) (item : CustomMenuItem I) : Menu I :=
  .mk (self.items ++ [MenuEntry.CustomItem item])

/-- `Menu::add_native_item(self, item)`: push a reserved-action leaf. -/
def Menu.add_native_item {I : Type} (self : Menu I) (item : MenuItem) : Menu I :=
  .mk (self.items ++ [MenuEntry.NativeItem item])

/-- `Menu::add_submenu(self, submenu)`: push a nested submenu. -/
def Menu.add_submenu {I : Type} (self : Menu I) (submenu : Submenu I) : Menu I :=
  .mk (self.items ++ [MenuEntry.Submenu submenu])

mutual

/-- A system tray menu (`SystemTrayMenu<I>`). -/
inductive SystemTrayMenu (I : Type) where
  | mk : List (SystemTrayMenuEntry I) → SystemTrayMenu I

/-- `SystemTraySubmenu<I>`: title, enabled flag, inner tray menu. -/
inductive SystemTraySubmenu (I : Type) where
  | mk : String → Bool → SystemTrayMenu I → SystemTraySubmenu I

/-- An entry on the system tray menu (`SystemTrayMenuEntry<I>`). -/
inductive SystemTrayMenuEntry (I : Type) where
  | CustomItem : CustomMenuItem I → SystemTrayMenuEntry I
  | NativeItem : SystemTrayMenuItem → SystemTrayMenuEntry I
  | Submenu : SystemTraySubmenu I → SystemTrayMenuEntry I

end

/-- The `items` field of `SystemTrayMenu<I>`. -/
def SystemTrayMenu.items {I : Type} : SystemTrayMenu I → List (SystemTrayMenuEntry I)
  | .mk l => l

/-- The `title` field of `SystemTraySubmenu<I>`. -/
def SystemTraySubmenu.title {I : Type} : SystemTraySubmenu I → String
  | .mk t _ _ => t

/-- The `enabled` field of `SystemTraySubmenu<I>`. -/
def SystemTraySubmenu.enabled {I : Type} : SystemTraySubmenu I → Bool
  | .mk _ e _ => e

/-- The `inner` field of `SystemTraySubmenu<I>`. -/
def SystemTraySubmenu.inner {I : Type} : SystemTraySubmenu I → SystemTrayMenu I
  | .mk _ _ m => m

/-- `SystemTraySubmenu::new(title, menu)`: named, initially-enabled submenu. -/
def SystemTraySubmenu.new {I : Type} (title : String) (menu : SystemTrayMenu I) :
    SystemTraySubmenu I :=
  .mk title true menu

/-- `SystemTrayMenu::default()` / `SystemTrayMenu::new()`: the empty tray menu. -/
def SystemTrayMenu.new {I : Type} : SystemTrayMenu I :=
  .mk []

/-- `SystemTrayMenu::add_item(self, item)`: push a custom leaf. -/
def SystemTrayMenu.add_item {I : Type} (self : SystemTrayMenu I)
    (item : CustomMenuItem I) : SystemTrayMenu I :=
  .mk (self.items ++ [SystemTrayMenuEntry.CustomItem item])

/-- `SystemTrayMenu::add_native_item(self, item)`: push a tray native leaf. -/
def SystemTrayMenu.add_native_item {I : Type} (self : SystemTrayMenu I)
    (item : SystemTrayMenuItem) : SystemTrayMenu I :=
  .mk (self.items ++ [SystemTrayMenuEntry.NativeItem item])

/-- `SystemTrayMenu::add_submenu(self, submenu)`: push a nested tray submenu. -/
def SystemTrayMenu.add_submenu {I : Type} (self : SystemTrayMenu I)
    (submenu : SystemTraySubmenu I) : SystemTrayMenu I :=
  .mk (self.items ++ [SystemTrayMenuEntry.Submenu submenu])

/-- Modelled from the spec: the observable state of a realized menu item held
by the platform adapter (which is an external collaborator, not part of this
repository's source): enabled flag, title text, selected flag, and the
optional native image reference. -/
structure RealizedItem where
  enabled : Bool
  title : String
  selected : Bool
  native_image : Option NativeImage
deriving DecidableEq

/-- Modelled from the spec: the platform adapter's application of a
`MenuUpdate` command to a realized item — each command has its intended
single-field effect (set enabled, replace title text, set selected, replace
icon reference). The adapter itself is external to this repository. -/
def applyUpdate (update : MenuUpdate) (s : RealizedItem) : RealizedItem :=
  match update with
  | .SetEnabled b => { s with enabled := b }
  | .SetTitle t => { s with title := t }
  | .SetSelected b => { s with selected := b }
  | .SetNativeImage img => { s with native_image := some img }

/-- Claim C1: for identifier values `a, b` of the same capability type, if
`a = b` then resolving items carrying them via `id_value` produces the same
32-bit numeric identifier (for any titles), and resolving the same identifier
value twice yields identical results. -/
theorem c1_resolver_deterministic {I : Type} (hash : I → Nat) (a b : I)
    (t₁ t₂ : String) (h : a = b) :
    (CustomMenuItem.new a t₁).id_value hash = (CustomMenuItem.new b t₂).id_value hash ∧
    (CustomMenuItem.new a t₁).id_value hash = (CustomMenuItem.new a t₁).id_value hash := by
  subst h
  exact ⟨rfl, rfl⟩

/-- Witness for C1 at a concrete input. -/
theorem c1_resolver_deterministic_witness :
    (3 : Nat) = 3 ∧
    ((CustomMenuItem.new (3 : Nat) "Open").id_value (fun n => n)
        = (CustomMenuItem.new (3 : Nat) "Save").id_value (fun n => n) ∧
      (CustomMenuItem.new (3 : Nat) "Open").id_value (fun n => n)
        = (CustomMenuItem.new (3 : Nat) "Open").id_value (fun n => n)) :=
  ⟨rfl, c1_resolver_deterministic (fun n => n) 3 3 "Open" "Save" rfl⟩

/-- Claim C2: `id_value` equals the 64-bit `DefaultHasher` finish value of the
item's id truncated modulo `2 ^ 32`, and the result is always a 32-bit value;
it is a total function of the item. -/
theorem c2_id_value_is_truncated_hash {I : Type} (hash : I → Nat)
    (item : CustomMenuItem I) :
    item.id_value hash = hashFinish hash item.id % 2 ^ 32 ∧
    item.id_value hash < 2 ^ 32 := by
  refine ⟨rfl, ?_⟩
  exact Nat.mod_lt _ (by norm_num)

/-- Claim C3: on both `Menu` and `SystemTrayMenu`, each of `add_item`,
`add_native_item` and `add_submenu` appends exactly one entry at the end,
leaving all prior entries unchanged in order, and grows the length by 1. -/
theorem c3_builders_append_one {I : Type} (m : Menu I) (tm : SystemTrayMenu I)
    (c : CustomMenuItem I) (n : MenuItem) (s : Submenu I)
    (tn : SystemTrayMenuItem) (ts : SystemTraySubmenu I) :
    ((m.add_item c).items = m.items ++ [MenuEntry.CustomItem c] ∧
      (m.add_item c).items.length = m.items.length + 1) ∧
    ((m.add_native_item n).items = m.items ++ [MenuEntry.NativeItem n] ∧
      (m.add_native_item n).items.length = m.items.length + 1) ∧
    ((m.add_submenu s).items = m.items ++ [MenuEntry.Submenu s] ∧
      (m.add_submenu s).items.length = m.items.length + 1) ∧
    ((tm.add_item c).items = tm.items ++ [SystemTrayMenuEntry.CustomItem c] ∧
      (tm.add_item c).items.length = tm.items.length + 1) ∧
    ((tm.add_native_item tn).items = tm.items ++ [SystemTrayMenuEntry.NativeItem tn] ∧
      (tm.add_native_item tn).items.length = tm.items.length + 1) ∧
    ((tm.add_submenu ts).items = tm.items ++ [SystemTrayMenuEntry.Submenu ts] ∧
      (tm.add_submenu ts).items.length = tm.items.length + 1) := by
  cases m
  cases tm
  simp [Menu.add_item, Menu.add_native_item, Menu.add_submenu,
    SystemTrayMenu.add_item, SystemTrayMenu.add_native_item,
    SystemTrayMenu.add_submenu, Menu.items, SystemTrayMenu.items]

/-- Claim C4: every value of `SystemTrayMenuItem` is the `Separator` variant
(window-menu-only actions such as `Quit` are unrepresentable in a tray menu by
construction), while `add_native_item SystemTrayMenuItem.Separator` is
representable and appends a native separator entry. -/
theorem c4_tray_native_catalog_closed :
    (∀ x : SystemTrayMenuItem, x = SystemTrayMenuItem.Separator) ∧
    ((SystemTrayMenu.new (I := Nat)).add_native_item SystemTrayMenuItem.Separator).items
      = [SystemTrayMenuEntry.NativeItem SystemTrayMenuItem.Separator] := by
  constructor
  · intro x
    cases x
    rfl
  · rfl

/-- Claim C5: `CustomMenuItem.new id title` yields `enabled = true`,
`selected = false`, no keyboard accelerator, no native image, and stores the
given `id` and `title` unchanged. -/
theorem c5_new_default_state {I : Type} (id : I) (title : String) :
    (CustomMenuItem.new id title).enabled = true ∧
    (CustomMenuItem.new id title).selected = false ∧
    (CustomMenuItem.new id title).keyboard_accelerator = none ∧
    (CustomMenuItem.new id title).native_image = none ∧
    (CustomMenuItem.new id title).id = id ∧
    (CustomMenuItem.new id title).title = title :=
  ⟨rfl, rfl, rfl, rfl, rfl, rfl⟩

/-- Counterexample to claim C6 as stated: on an item whose `enabled` field is
already `false`, calling `disabled` does not flip `enabled` (it stays
`false`), so `disabled` is not a flip of the field for every item. -/
theorem c6_counterexample :
    ¬ (((CustomMenuItem.new (0 : Nat) "a").disabled).disabled.enabled
        = !((CustomMenuItem.new (0 : Nat) "a").disabled).enabled) := by
  decide

/-- Claim C6 (amended): `disabled` sets only the `enabled` field (to `false`)
and `selected'` sets only the `selected` field (to `true`); neither call
changes the `id`, `title`, `keyboard_accelerator` or `native_image` fields. -/
theorem c6_frame_effects {I : Type} (x : CustomMenuItem I) :
    (x.disabled.enabled = false ∧
      x.disabled.selected = x.selected ∧
      x.disabled.id = x.id ∧
      x.disabled.title = x.title ∧
      x.disabled.keyboard_accelerator = x.keyboard_accelerator ∧
      x.disabled.native_image = x.native_image) ∧
    (x.selected'.selected = true ∧
      x.selected'.enabled = x.enabled ∧
      x.selected'.id = x.id ∧
      x.selected'.title = x.title ∧
      x.selected'.keyboard_accelerator = x.keyboard_accelerator ∧
      x.selected'.native_image = x.native_image) :=
  ⟨⟨rfl, rfl, rfl, rfl, rfl, rfl⟩, ⟨rfl, rfl, rfl, rfl, rfl, rfl⟩⟩

/-- Claim C7: `Submenu.new title inner` and `SystemTraySubmenu.new title inner`
yield `enabled = true` regardless of `inner`, storing the given title and
inner menu unchanged. -/
theorem c7_submenu_default_enabled {I : Type} (title : String) (m : Menu I)
    (tm : SystemTrayMenu I) :
    ((Submenu.new title m).enabled = true ∧
      (Submenu.new title m).title = title ∧
      (Submenu.new title m).inner = m) ∧
    ((SystemTraySubmenu.new title tm).enabled = true ∧
      (SystemTraySubmenu.new title tm).title = title ∧
      (SystemTraySubmenu.new title tm).inner = tm) :=
  ⟨⟨rfl, rfl, rfl⟩, ⟨rfl, rfl, rfl⟩⟩

/-- Claim C8: the scenario build yields exactly 3 top-level entries in order —
a custom item, a native separator, then a submenu titled "File" that is
enabled and contains exactly one custom entry titled "Save". -/
theorem c8_scenario :
    (((Menu.new.add_item (CustomMenuItem.new (0 : Nat) "Open")).add_native_item
          MenuItem.Separator).add_submenu
        (Submenu.new "File" (Menu.new.add_item (CustomMenuItem.new 1 "Save")))).items
      = [MenuEntry.CustomItem (CustomMenuItem.new 0 "Open"),
          MenuEntry.NativeItem MenuItem.Separator,
          MenuEntry.Submenu (Submenu.new "File"
            (Menu.new.add_item (CustomMenuItem.new 1 "Save")))] ∧
    (((Menu.new.add_item (CustomMenuItem.new (0 : Nat) "Open")).add_native_item
          MenuItem.Separator).add_submenu
        (Submenu.new "File" (Menu.new.add_item (CustomMenuItem.new 1 "Save")))).items.length
      = 3 ∧
    (Submenu.new "File" (Menu.new.add_item (CustomMenuItem.new (1 : Nat) "Save"))).title
      = "File" ∧
    (Submenu.new "File" (Menu.new.add_item (CustomMenuItem.new (1 : Nat) "Save"))).enabled
      = true ∧
    (Submenu.new "File"
        (Menu.new.add_item (CustomMenuItem.new (1 : Nat) "Save"))).inner.items
      = [MenuEntry.CustomItem (CustomMenuItem.new 1 "Save")] ∧
    (CustomMenuItem.new (1 : Nat) "Save").title = "Save" :=
  ⟨rfl, rfl, rfl, rfl, rfl, rfl⟩

/-- Claim C9: applying `MenuUpdate.SetEnabled true` twice in sequence to a
realized item is observably equivalent to applying it once. -/
theorem c9_set_enabled_idempotent (s : RealizedItem) :
    applyUpdate (MenuUpdate.SetEnabled true) (applyUpdate (MenuUpdate.SetEnabled true) s)
      = applyUpdate (MenuUpdate.SetEnabled true) s :=
  rfl

/-- Claim C10: `id_value` depends only on the `id` field — items with equal
ids resolve equally regardless of every other field, and `disabled`,
`selected'` and `native_image'` never change an item's `id_value`. -/
theorem c10_id_value_depends_only_on_id {I : Type} (hash : I → Nat)
    (x y : CustomMenuItem I) (img : NativeImage) (h : x.id = y.id) :
    x.id_value hash = y.id_value hash ∧
    x.disabled.id_value hash = x.id_value hash ∧
    x.selected'.id_value hash = x.id_value hash ∧
    (x.native_image' img).id_value hash = x.id_value hash := by
  refine ⟨?_, rfl, rfl, rfl⟩
  simp only [CustomMenuItem.id_value, h]

/-- Witness for C10 at a concrete input: two items sharing id 5 but differing
in every other field. -/
theorem c10_id_value_depends_only_on_id_witness :
    (CustomMenuItem.new (5 : Nat) "Open").id
        = ((CustomMenuItem.new (5 : Nat) "Save").disabled.selected'.native_image'
            NativeImage.Add).id ∧
    ((CustomMenuItem.new (5 : Nat) "Open").id_value (fun n => n)
        = ((CustomMenuItem.new (5 : Nat) "Save").disabled.selected'.native_image'
            NativeImage.Add).id_value (fun n => n) ∧
      (CustomMenuItem.new (5 : Nat) "Open").disabled.id_value (fun n => n)
        = (CustomMenuItem.new (5 : Nat) "Open").id_value (fun n => n) ∧
      (CustomMenuItem.new (5 : Nat) "Open").selected'.id_value (fun n => n)
        = (CustomMenuItem.new (5 : Nat) "Open").id_value (fun n => n) ∧
      ((CustomMenuItem.new (5 : Nat) "Open").native_image' NativeImage.Caution).id_value
          (fun n => n)
        = (CustomMenuItem.new (5 : Nat) "Open").id_value (fun n => n)) :=
  ⟨rfl, c10_id_value_depends_only_on_id (fun n => n) (CustomMenuItem.new 5 "Open")
    ((CustomMenuItem.new 5 "Save").disabled.selected'.native_image' NativeImage.Add)
    NativeImage.Caution rfl⟩

end TauriMenu
